import Mathlib

/-!
# Verification of the TMV7.1 tank-monitor firmware core

Shallow embedding of the core logic of `tmv7/tmv7.ino` (ESP8266 tank
monitor): the update-manifest parser and fetch step, the update session
state machine (`handleCheckUpdate` / `handleInstallUpdate`), the sensor
debouncer, the level-snapshot engine (`pollSensors`, `calcTankPercent`),
the timestamp backfill unit, and the per-channel time formatter.

Machine integers are embedded as `Nat`/`Int`; the 32-bit `unsigned long`
wraparound subtraction used for uptime arithmetic is made explicit via
`usub32`.  External effects (HTTP transport, OTA engine, `digitalRead`,
`time(nullptr)`, `millis()`, `strftime`) are inputs to the embedded
functions.
-/

set_option autoImplicit false

namespace TMV7

/-- `MIN_VALID_EPOCH` from the source: 2024-01-01 00:00:00 UTC. -/
def MIN_VALID_EPOCH : Int := 1704067200

/-- `FW_VERSION_CODE` from the source. -/
def FW_VERSION_CODE : Int := 2026022303

/-- `FW_VERSION_NAME` from the source. -/
def FW_VERSION_NAME : String := "7.1.5"

/-- `UPDATE_MANIFEST_URL` from the source. -/
def UPDATE_MANIFEST_URL : String :=
  "https://raw.githubusercontent.com/gavc/tmv71/main/ota/manifest.txt"

/-- `HTTP_CODE_OK` from the ESP8266 HTTP client library. -/
def HTTP_CODE_OK : Int := 200

/-- `2^32`, the modulus of the 32-bit `unsigned long` arithmetic on ESP8266. -/
def UL_MOD : Nat := 4294967296

/-- 32-bit unsigned subtraction `(unsigned long)(a - b)` as used by the
source for uptime differences. -/
def usub32 (a b : Nat) : Nat :=
  (a % UL_MOD + (UL_MOD - b % UL_MOD)) % UL_MOD

/-- The `UpdateManifest` struct of the source.  `versionCode` is a C `long`
(32-bit on ESP8266), embedded as `Int`. -/
structure UpdateManifest where
  versionCode : Int
  versionName : String
  firmwareUrl : String
  deriving Repr, DecidableEq

/-- The zero initializer `{0, "", ""}` used for `pendingUpdate`. -/
def emptyManifest : UpdateManifest :=
  { versionCode := 0, versionName := "", firmwareUrl := "" }

/-! ## C string primitives used by the parser

Arduino `String::trim` strips `isspace` characters from both ends,
`String::toLowerCase` applies ASCII `tolower` per character, and
`String::toInt` is newlib `atol` (i.e. `strtol` base 10, saturating at
the 32-bit `long` range).  They are embedded on `List Char`. -/

/-- C `isspace`: space, \t, \n, \v, \f, \r. -/
def isSpaceChar (c : Char) : Bool :=
  c = ' ' || c = '\t' || c = '\n' || c = '\x0b' || c = '\x0c' || c = '\r'

/-- ASCII `tolower` on one character. -/
def toLowerChar (c : Char) : Char :=
  if 'A' ≤ c ∧ c ≤ 'Z' then Char.ofNat (c.toNat + 32) else c

/-- `String::toLowerCase`. -/
def toLowerChars (l : List Char) : List Char :=
  l.map toLowerChar

/-- Arduino `String::startsWith`: the first argument is a prefix of the
second. -/
def isPrefixOfChars : List Char → List Char → Bool
  | [], _ => true
  | _ :: _, [] => false
  | p :: ps, c :: cs => p = c && isPrefixOfChars ps cs

/-- `String::trim`: drop `isspace` characters from both ends. -/
def trimChars (l : List Char) : List Char :=
  ((l.dropWhile isSpaceChar).reverse.dropWhile isSpaceChar).reverse

/-- Value of a (already validated) decimal digit string. -/
def digitsToNat (l : List Char) : Nat :=
  l.foldl (fun a c => a * 10 + (c.toNat - 48)) 0

/-- newlib `atol` (as called by Arduino `String::toInt`): skip leading
whitespace, optional sign, longest digit prefix, `0` when no digits,
saturating at the 32-bit `long` range. -/
def atolChars (l : List Char) : Int :=
  let l1 := l.dropWhile isSpaceChar
  let signed : Bool × List Char :=
    match l1 with
    | '-' :: r => (true, r)
    | '+' :: r => (false, r)
    | _ => (false, l1)
  let n : Nat := digitsToNat (signed.2.takeWhile Char.isDigit)
  let v : Int := if signed.1 then -(n : Int) else (n : Int)
  if v > 2147483647 then 2147483647
  else if v < -2147483648 then -2147483648
  else v

/-- The line-splitting loop of `parseManifest` (lines 228-237 of the
source): segments of `body` separated by `'\n'`, where the loop condition
`start < body.length()` means an empty body yields no segment and a
trailing `'\n'` yields no trailing empty segment. -/
def splitNLAux : List Char → List Char → List (List Char)
  | cur, [] => [cur.reverse]
  | cur, c :: rest =>
    if c = '\n' then
      cur.reverse :: (match rest with
        | [] => []
        | _ :: _ => splitNLAux [] rest)
    else
      splitNLAux (c :: cur) rest

/-- Top-level entry of the line splitter; see `splitNLAux`. -/
def splitNL (cs : List Char) : List (List Char) :=
  match cs with
  | [] => []
  | _ :: _ => splitNLAux [] cs

/-- The key/value dispatch of `parseManifest` (lines 248-260 of the
source): trim key and value, lowercase the key, and assign the matching
manifest field; unrecognized keys leave the accumulator unchanged. -/
def processKV (acc : UpdateManifest) (key value : List Char) : UpdateManifest :=
  let k := toLowerChars (trimChars key)
  let v := trimChars value
  if k = "version_code".data then { acc with versionCode := atolChars v }
  else if k = "version_name".data then { acc with versionName := String.mk v }
  else if k = "firmware_url".data then { acc with firmwareUrl := String.mk v }
  else acc

/-- One iteration of the `parseManifest` loop body on a raw line (lines
235-260 of the source): trim; skip blank lines and lines starting with
`'#'`; skip lines whose first `'='` is absent or at index 0; otherwise
split at the first `'='` and dispatch via `processKV`. -/
def processLine (acc : UpdateManifest) (line : List Char) : UpdateManifest :=
  let t := trimChars line
  if t = [] then acc
  else if isPrefixOfChars "#".data t then acc
  else
    match t.findIdx? (fun c => c = '=') with
    | none => acc
    | some 0 => acc
    | some eq => processKV acc (t.take eq) (t.drop (eq + 1))

/-- The field-accumulation phase of `parseManifest` (lines 224-261 of the
source): starting from the zeroed `out`, fold the loop body over the
lines of `body`. -/
def parseManifestFields (body : String) : UpdateManifest :=
  (splitNL body.data).foldl processLine emptyManifest

/-- `parseManifest` (lines 223-275 of the source).  The C out-parameter /
boolean-return calling convention is embedded as `Except error manifest`. -/
def parseManifest (body : String) : Except String UpdateManifest :=
  let out := parseManifestFields body
  if out.versionCode ≤ 0 then .error "manifest missing valid version_code"
  else if out.firmwareUrl = "" then .error "manifest missing firmware_url"
  else .ok { out with
    versionName := if out.versionName = "" then toString out.versionCode
                   else out.versionName }

/-! ## Fetch step -/

/-- One transport interaction as seen by `fetchTextFromUrl`: whether
`http.begin` succeeded, the value returned by `http.GET()` (an HTTP
status, or a negative library error code), and the response body. -/
structure TransportResponse where
  opened : Bool
  code : Int
  body : String
  deriving Repr, DecidableEq

/-- `fetchTextFromUrl` (lines 277-307 of the source).  The `https://` and
plain-`http` branches differ only in the transport object they construct;
both check `http.begin` and then inspect `http.GET()`. -/
def fetchTextFromUrl (url : String) (resp : TransportResponse) : Except String String :=
  if isPrefixOfChars "https://".data url.data then
    if ¬ resp.opened then .error "cannot open URL"
    else if resp.code ≠ HTTP_CODE_OK then .error ("HTTP " ++ toString resp.code)
    else .ok resp.body
  else
    if ¬ resp.opened then .error "cannot open URL"
    else if resp.code ≠ HTTP_CODE_OK then .error ("HTTP " ++ toString resp.code)
    else .ok resp.body

/-- `fetchManifest` (lines 309-316 of the source): fetch the manifest URL
and hand the body to `parseManifest`. -/
def fetchManifest (resp : TransportResponse) : Except String UpdateManifest :=
  (fetchTextFromUrl UPDATE_MANIFEST_URL resp).bind parseManifest

/-! ## Device state -/

/-- The `SensorSnapshot` struct of the source. -/
structure SensorSnapshot where
  wet : Fin 4 → Bool
  wetCount : Nat
  tankPercent : Nat
  sampledAtMs : Nat

/-- The process-wide mutable state touched by the embedded handlers:
`snapshot`, `pendingUpdate`, `updateAvailable`, `updateStatus`, and the
per-channel transition records (`sensorInitialized`,
`sensorChangedAtEpoch`, `sensorChangedAtMs`). -/
structure DeviceState where
  snapshot : SensorSnapshot
  pendingUpdate : UpdateManifest
  updateAvailable : Bool
  updateStatus : String
  sensorInitialized : Fin 4 → Bool
  sensorChangedAtEpoch : Fin 4 → Int
  sensorChangedAtMs : Fin 4 → Nat

/-! ## Sensor debouncer and snapshot engine -/

/-- `readStableSensorWet` (lines 139-154 of the source).  The five
`digitalRead` results are the input `samples` (`true` = `HIGH`); the
channel's `SENSOR_INVERTED` entry is the input `inverted`.  Counts the
`HIGH` samples, takes `wet = highCount >= 3`, then applies inversion. -/
def readStableSensorWet (inverted : Bool) (samples : Fin 5 → Bool) : Bool :=
  let highCount := ((List.finRange 5).filter (fun i => samples i)).length
  let wet := decide (3 ≤ highCount)
  if inverted then !wet else wet

/-- The counting loop of `calcTankPercent`: walk the given channel order,
adding 1 per wet channel, stopping at the first dry one (`break`). -/
def bandsFromBottom (wet : Fin 4 → Bool) : List (Fin 4) → Nat
  | [] => 0
  | i :: rest => if wet i then 1 + bandsFromBottom wet rest else 0

/-- `calcTankPercent` (lines 156-166 of the source): the loop runs
`i = 3` down to `0`, then scales by 25. -/
def calcTankPercent (wet : Fin 4 → Bool) : Nat :=
  bandsFromBottom wet [3, 2, 1, 0] * 25

/-- The `wetCount` accumulation of `pollSensors`: the number of wet
channels in the new snapshot. -/
def countWet (wet : Fin 4 → Bool) : Nat :=
  ((List.finRange 4).filter (fun i => wet i)).length

/-- `pollSensors` (lines 168-187 of the source).  The debounced reads are
the input `readings`; `nowMs` and `nowEpoch` are the `millis()` /
`time(nullptr)` values taken at the top of the function, and `nowMs2` is
the second `millis()` call that stamps `snapshot.sampledAtMs` at the end.
A channel's transition record is rewritten exactly when the channel was
never initialized or its new value differs from `snapshot.wet[i]`. -/
def pollSensors (st : DeviceState) (readings : Fin 4 → Bool)
    (nowMs : Nat) (nowEpoch : Int) (nowMs2 : Nat) : DeviceState :=
  { st with
    sensorChangedAtMs := fun i =>
      if ¬ st.sensorInitialized i ∨ readings i ≠ st.snapshot.wet i then nowMs
      else st.sensorChangedAtMs i,
    sensorChangedAtEpoch := fun i =>
      if ¬ st.sensorInitialized i ∨ readings i ≠ st.snapshot.wet i then nowEpoch
      else st.sensorChangedAtEpoch i,
    sensorInitialized := fun i =>
      if ¬ st.sensorInitialized i ∨ readings i ≠ st.snapshot.wet i then true
      else st.sensorInitialized i,
    snapshot :=
      { wet := readings, wetCount := countWet readings,
        tankPercent := calcTankPercent readings, sampledAtMs := nowMs2 } }

/-! ## Timestamp backfill -/

/-- `backfillSensorEpochTimes` (lines 87-104 of the source).  The two
`time(nullptr)` calls (inside `isTimeSynced` and at line 92) and the
`millis()` call are the inputs `nowEpoch` / `nowMs`.  A no-op unless the
clock is trusted (`nowEpoch >= MIN_VALID_EPOCH`); then every initialized
channel with a recorded transition whose epoch is still below
`MIN_VALID_EPOCH` gets `nowEpoch - ageSec` (or `nowEpoch` when that
difference would not be positive), where `ageSec` is the 32-bit uptime
difference in whole seconds. -/
def backfillSensorEpochTimes (st : DeviceState) (nowEpoch : Int) (nowMs : Nat) : DeviceState :=
  if nowEpoch < MIN_VALID_EPOCH then st
  else
    { st with sensorChangedAtEpoch := fun i =>
        if ¬ st.sensorInitialized i ∨ st.sensorChangedAtMs i = 0 ∨
            MIN_VALID_EPOCH ≤ st.sensorChangedAtEpoch i then
          st.sensorChangedAtEpoch i
        else
          let ageMs := usub32 nowMs (st.sensorChangedAtMs i)
          let ageSec : Int := ((ageMs / 1000 : Nat) : Int)
          if nowEpoch > ageSec then nowEpoch - ageSec else nowEpoch }

/-! ## Time formatting -/

/-- `formatEpoch` (lines 106-117 of the source).  The
`localtime_r`/`strftime` pair is the input `strf`; `none` models a
`localtime_r` failure. -/
def formatEpoch (strf : Int → Option String) (t : Int) : String :=
  if t ≤ 0 then "-"
  else
    match strf t with
    | none => "-"
    | some s => s

/-- `sensorChangeTimeToStr` (lines 119-129 of the source).  `nowEpoch`
models the `time(nullptr)` read inside `isTimeSynced`.  The short-circuit
`idx > 3 || sensorChangedAtMs[idx] == 0` guard is the nested
conditional. -/
def sensorChangeTimeToStr (strf : Int → Option String) (st : DeviceState)
    (nowEpoch : Int) (idx : Nat) : String :=
  if h : 3 < idx then "-"
  else
    let i : Fin 4 := ⟨idx, by omega⟩
    if st.sensorChangedAtMs i = 0 then "-"
    else if MIN_VALID_EPOCH ≤ nowEpoch ∧ MIN_VALID_EPOCH ≤ st.sensorChangedAtEpoch i then
      formatEpoch strf (st.sensorChangedAtEpoch i)
    else "t+" ++ toString (st.sensorChangedAtMs i / 1000) ++ "s"

/-! ## Update state machine -/

/-- `handleCheckUpdate` (lines 398-426 of the source).  `wifiConnected`
models `WiFi.status() == WL_CONNECTED`; `resp` the transport interaction
consumed by `fetchManifest`.  The `redirectHome()` calls are
presentation-layer effects with no bearing on the embedded state. -/
def handleCheckUpdate (st : DeviceState) (wifiConnected : Bool)
    (resp : TransportResponse) : DeviceState :=
  if ¬ wifiConnected then
    { st with
      updateAvailable := false,
      updateStatus := "Cannot check update: WiFi is disconnected." }
  else
    match fetchManifest resp with
    | .error e =>
      { st with
        updateAvailable := false,
        updateStatus := "Update check failed: " ++ e }
    | .ok latest =>
      if latest.versionCode > FW_VERSION_CODE then
        { st with
          pendingUpdate := latest,
          updateAvailable := true,
          updateStatus := "Update found: " ++ latest.versionName ++ " (" ++
            toString latest.versionCode ++ ")." }
      else
        { st with
          updateAvailable := false,
          pendingUpdate := emptyManifest,
          updateStatus := "No new update. Device is current." }

/-- The three outcomes of `ESPhttpUpdate.update` from the install
handler's point of view: `HTTP_UPDATE_FAILED` with the library's last
error code and string, `HTTP_UPDATE_NO_UPDATES`, or success. -/
inductive OtaResult where
  | failed (errCode : Int) (errMsg : String)
  | noUpdates
  | success
  deriving Repr, DecidableEq

/-- `handleInstallUpdate` (lines 428-473 of the source).  Returns the new
state together with a flag telling whether the OTA transfer
(`ESPhttpUpdate.update`) was invoked; `ota` is that transfer's outcome.
The progress page sent before the transfer is presentation only.  (On a
successful transfer the device reboots before the final status
assignment; the embedding keeps the assignment exactly as written.) -/
def handleInstallUpdate (st : DeviceState) (wifiConnected : Bool)
    (ota : OtaResult) : DeviceState × Bool :=
  if ¬ st.updateAvailable then
    ({ st with updateStatus := "No pending update. Run check first." }, false)
  else if ¬ wifiConnected then
    ({ st with updateStatus := "Cannot install update: WiFi is disconnected." }, false)
  else
    match ota with
    | .failed c m =>
      ({ st with
         updateStatus := "OTA failed (" ++ toString c ++ "): " ++ m,
         updateAvailable := false }, true)
    | .noUpdates =>
      ({ st with
         updateStatus := "OTA result: no updates returned by server.",
         updateAvailable := false }, true)
    | .success =>
      ({ st with updateStatus := "OTA reported success." }, true)

/-! ## Spec-side definitions and concrete fixtures -/

/-- A `Fin 4 → Bool` wet-vector from explicit entries, index 0 = top. -/
def wet4 (a b c d : Bool) : Fin 4 → Bool :=
  fun i => match i with
  | 0 => a
  | 1 => b
  | 2 => c
  | 3 => d

/-- From the spec's words (for comparison with `calcTankPercent`): the
number of contiguous wet channels starting from index 3 going to 0,
stopping at the first dry channel. -/
def specContiguousWetFromBottom (wet : Fin 4 → Bool) : Nat :=
  (([3, 2, 1, 0] : List (Fin 4)).takeWhile (fun i => wet i)).length

/-- The number of asserted (`HIGH`) samples among the five reads taken by
`readStableSensorWet`. -/
def assertedCount (samples : Fin 5 → Bool) : Nat :=
  ((List.finRange 5).filter (fun i => samples i)).length

/-- A concrete device state mirroring the source's global initializers
(lines 55-62). -/
def testState : DeviceState :=
  { snapshot := { wet := wet4 false false false false, wetCount := 0,
                  tankPercent := 0, sampledAtMs := 0 },
    pendingUpdate := emptyManifest,
    updateAvailable := false,
    updateStatus := "No update check yet.",
    sensorInitialized := fun _ => false,
    sensorChangedAtEpoch := fun _ => 0,
    sensorChangedAtMs := fun _ => 0 }

/-- A concrete non-empty pending manifest (as left by a successful check
that found a newer version). -/
def pendingW : UpdateManifest :=
  { versionCode := 2026022400, versionName := "7.2.0", firmwareUrl := "http://x/fw.bin" }

/-- A device state holding a pending update from a previous successful
check. -/
def stWithPending : DeviceState :=
  { testState with pendingUpdate := pendingW, updateAvailable := true }

/-- A transport interaction in which `http.begin` fails. -/
def failedResp : TransportResponse :=
  { opened := false, code := 0, body := "" }

/-- A device state in which every channel is initialized with a
transition recorded at uptime 1000 ms and a not-yet-backfilled epoch. -/
def st7 : DeviceState :=
  { testState with sensorInitialized := fun _ => true, sensorChangedAtMs := fun _ => 1000 }

/-- A device state whose channels already carry a backfilled epoch. -/
def stBackfilled : DeviceState :=
  { st7 with sensorChangedAtEpoch := fun _ => 1704067210 }

/-! ## Theorems -/

/-- C4: for every boolean array `wet[4]` (index 0 = top, 3 = bottom), the
computed fill percentage equals 25 times the number of contiguous wet
channels counted from index 3 upward, stopping at the first dry channel;
in particular `[T,F,T,T]` gives 50, `[F,F,F,T]` gives 25, `[T,T,T,T]`
gives 100, `[F,F,F,F]` gives 0, and `[T,F,F,T]` gives 25. -/
theorem calcTankPercent_contiguous_fill :
    (∀ wet : Fin 4 → Bool, calcTankPercent wet = 25 * specContiguousWetFromBottom wet) ∧
    calcTankPercent (wet4 true false true true) = 50 ∧
    calcTankPercent (wet4 false false false true) = 25 ∧
    calcTankPercent (wet4 true true true true) = 100 ∧
    calcTankPercent (wet4 false false false false) = 0 ∧
    calcTankPercent (wet4 true false false true) = 25 := by decide

set_option maxRecDepth 10000 in
/-- C5: for every sequence of 5 raw samples, `readStableSensorWet`
returns wet iff at least 3 of the 5 samples read the asserted (`HIGH`)
level; the result is invariant under any permutation of the samples
(which also preserves the vote count, so inversion cannot change which
samples are counted); and flipping the polarity-inversion flag always
negates the final result. -/
theorem readStableSensorWet_majority_vote :
    (∀ samples : Fin 5 → Bool,
      (readStableSensorWet false samples = true ↔ 3 ≤ assertedCount samples)) ∧
    (∀ inverted : Bool, ∀ samples : Fin 5 → Bool, ∀ e : Equiv.Perm (Fin 5),
      readStableSensorWet inverted (samples ∘ e) = readStableSensorWet inverted samples ∧
      assertedCount (samples ∘ e) = assertedCount samples) ∧
    (∀ samples : Fin 5 → Bool,
      readStableSensorWet true samples = !(readStableSensorWet false samples)) := by decide

/-- C9: invoking install while `updateAvailable` is false changes no
state other than the status message — `pendingUpdate`,
`updateAvailable`, the level snapshot, and all transition records are
unchanged — the status message becomes the "no pending update" message,
and the OTA transfer is not invoked. -/
theorem handleInstallUpdate_noop_when_unavailable (st : DeviceState)
    (wifiConnected : Bool) (ota : OtaResult) (h : st.updateAvailable = false) :
    (handleInstallUpdate st wifiConnected ota).1.pendingUpdate = st.pendingUpdate ∧
    (handleInstallUpdate st wifiConnected ota).1.updateAvailable = st.updateAvailable ∧
    (handleInstallUpdate st wifiConnected ota).1.snapshot = st.snapshot ∧
    (handleInstallUpdate st wifiConnected ota).1.sensorInitialized = st.sensorInitialized ∧
    (handleInstallUpdate st wifiConnected ota).1.sensorChangedAtEpoch = st.sensorChangedAtEpoch ∧
    (handleInstallUpdate st wifiConnected ota).1.sensorChangedAtMs = st.sensorChangedAtMs ∧
    (handleInstallUpdate st wifiConnected ota).1.updateStatus = "No pending update. Run check first." ∧
    (handleInstallUpdate st wifiConnected ota).2 = false := by
  simp [handleInstallUpdate, h]

/-- Witness for C9: the install precondition theorem applied to the
initial device state with connectivity up and a would-be-successful OTA
outcome. -/
theorem handleInstallUpdate_noop_when_unavailable_witness :
    (handleInstallUpdate testState true .success).1.pendingUpdate = testState.pendingUpdate ∧
    (handleInstallUpdate testState true .success).1.updateAvailable = testState.updateAvailable ∧
    (handleInstallUpdate testState true .success).1.snapshot = testState.snapshot ∧
    (handleInstallUpdate testState true .success).1.sensorInitialized = testState.sensorInitialized ∧
    (handleInstallUpdate testState true .success).1.sensorChangedAtEpoch = testState.sensorChangedAtEpoch ∧
    (handleInstallUpdate testState true .success).1.sensorChangedAtMs = testState.sensorChangedAtMs ∧
    (handleInstallUpdate testState true .success).1.updateStatus = "No pending update. Run check first." ∧
    (handleInstallUpdate testState true .success).2 = false :=
  handleInstallUpdate_noop_when_unavailable testState true .success rfl

/-- C8: for every channel whose `changedAtEpoch` is already at or above
the minimum valid epoch, invoking backfill again leaves that channel's
epoch value unchanged (backfill is idempotent on backfilled channels). -/
theorem backfillSensorEpochTimes_idempotent (st : DeviceState) (nowEpoch : Int)
    (nowMs : Nat) (i : Fin 4) (h : MIN_VALID_EPOCH ≤ st.sensorChangedAtEpoch i) :
    (backfillSensorEpochTimes st nowEpoch nowMs).sensorChangedAtEpoch i
      = st.sensorChangedAtEpoch i := by
  unfold backfillSensorEpochTimes
  split
  · rfl
  · simp [h]


/-- C8 witness: idempotence applied to a concrete already-backfilled
channel. -/
theorem backfillSensorEpochTimes_idempotent_witness :
    (backfillSensorEpochTimes stBackfilled 1704067300 5000).sensorChangedAtEpoch 0
      = stBackfilled.sensorChangedAtEpoch 0 :=
  backfillSensorEpochTimes_idempotent stBackfilled 1704067300 5000 0 (by decide)

/-- C6: during a poll, a channel's transition record (`changedAtMs`,
`changedAtEpoch`, `initialized`) is rewritten when the new debounced
value differs from the value stored in the current snapshot or the
channel has never been sampled, and a repeated identical reading leaves
the record unchanged. -/
theorem pollSensors_transition_stamping (st : DeviceState) (readings : Fin 4 → Bool)
    (nowMs : Nat) (nowEpoch : Int) (nowMs2 : Nat) (i : Fin 4) :
    (¬ st.sensorInitialized i ∨ readings i ≠ st.snapshot.wet i →
      (pollSensors st readings nowMs nowEpoch nowMs2).sensorChangedAtMs i = nowMs ∧
      (pollSensors st readings nowMs nowEpoch nowMs2).sensorChangedAtEpoch i = nowEpoch ∧
      (pollSensors st readings nowMs nowEpoch nowMs2).sensorInitialized i = true) ∧
    (st.sensorInitialized i = true → readings i = st.snapshot.wet i →
      (pollSensors st readings nowMs nowEpoch nowMs2).sensorChangedAtMs i = st.sensorChangedAtMs i ∧
      (pollSensors st readings nowMs nowEpoch nowMs2).sensorChangedAtEpoch i = st.sensorChangedAtEpoch i ∧
      (pollSensors st readings nowMs nowEpoch nowMs2).sensorInitialized i = st.sensorInitialized i) := by
  constructor
  · intro h
    refine ⟨?_, ?_, ?_⟩ <;> (simp only [pollSensors]; rw [if_pos h])
  · intro h1 h2
    have hn : ¬ (¬ st.sensorInitialized i ∨ readings i ≠ st.snapshot.wet i) := by
      simp [h1, h2]
    refine ⟨?_, ?_, ?_⟩ <;> (simp only [pollSensors]; rw [if_neg hn])

/-- C6 witness: a first-ever sample on channel 0 stamps its transition
record with the poll's uptime and epoch. -/
theorem pollSensors_transition_stamping_witness :
    (pollSensors testState (wet4 true false false false) 1000 1704067300 1001).sensorChangedAtMs 0 = 1000 ∧
    (pollSensors testState (wet4 true false false false) 1000 1704067300 1001).sensorChangedAtEpoch 0 = 1704067300 ∧
    (pollSensors testState (wet4 true false false false) 1000 1704067300 1001).sensorInitialized 0 = true :=
  (pollSensors_transition_stamping testState (wet4 true false false false) 1000 1704067300 1001 0).1
    (by decide)

/-- C7: when the clock is trusted, backfill sets every eligible channel's
epoch to `now_epoch - floor((now_uptime - changedAtUptimeMs) / 1000)`
(with the uptime difference taken in 32-bit arithmetic, which coincides
with plain subtraction when no rollover occurred), the result never
exceeds `now_epoch`, and with `changedAtUptimeMs = 1000` and uptime 5000
the result is `now_epoch - 4`; when the clock is not trusted, backfill
changes nothing. -/
theorem backfillSensorEpochTimes_correct (st : DeviceState) (nowEpoch : Int)
    (nowMs : Nat) (i : Fin 4) :
    (MIN_VALID_EPOCH ≤ nowEpoch →
     st.sensorInitialized i = true →
     st.sensorChangedAtMs i ≠ 0 →
     st.sensorChangedAtEpoch i < MIN_VALID_EPOCH →
       (backfillSensorEpochTimes st nowEpoch nowMs).sensorChangedAtEpoch i
         = nowEpoch - ((usub32 nowMs (st.sensorChangedAtMs i) / 1000 : Nat) : Int) ∧
       (backfillSensorEpochTimes st nowEpoch nowMs).sensorChangedAtEpoch i ≤ nowEpoch ∧
       (st.sensorChangedAtMs i ≤ nowMs → nowMs < UL_MOD →
         (backfillSensorEpochTimes st nowEpoch nowMs).sensorChangedAtEpoch i
           = nowEpoch - (((nowMs - st.sensorChangedAtMs i) / 1000 : Nat) : Int)) ∧
       (st.sensorChangedAtMs i = 1000 → nowMs = 5000 →
         (backfillSensorEpochTimes st nowEpoch nowMs).sensorChangedAtEpoch i = nowEpoch - 4)) ∧
    (nowEpoch < MIN_VALID_EPOCH → backfillSensorEpochTimes st nowEpoch nowMs = st) := by
  constructor
  · intro hT hI hM hE
    have hnotlt : ¬ nowEpoch < MIN_VALID_EPOCH := not_lt.mpr hT
    have hcond : ¬ (¬ st.sensorInitialized i ∨ st.sensorChangedAtMs i = 0 ∨
        MIN_VALID_EPOCH ≤ st.sensorChangedAtEpoch i) := by
      push_neg
      exact ⟨by simp [hI], hM, hE⟩
    have hage : usub32 nowMs (st.sensorChangedAtMs i) < UL_MOD := by
      unfold usub32
      exact Nat.mod_lt _ (by norm_num [UL_MOD])
    have hSec : ((usub32 nowMs (st.sensorChangedAtMs i) / 1000 : Nat) : Int) < nowEpoch := by
      have h1 : usub32 nowMs (st.sensorChangedAtMs i) / 1000 ≤ 4294967 := by
        unfold UL_MOD at hage
        omega
      unfold MIN_VALID_EPOCH at hT
      omega
    have hbody : backfillSensorEpochTimes st nowEpoch nowMs
        = { st with sensorChangedAtEpoch := fun j =>
            if ¬ st.sensorInitialized j ∨ st.sensorChangedAtMs j = 0 ∨
                MIN_VALID_EPOCH ≤ st.sensorChangedAtEpoch j then
              st.sensorChangedAtEpoch j
            else
              let ageMs := usub32 nowMs (st.sensorChangedAtMs j)
              let ageSec : Int := ((ageMs / 1000 : Nat) : Int)
              if nowEpoch > ageSec then nowEpoch - ageSec else nowEpoch } := by
      unfold backfillSensorEpochTimes
      rw [if_neg hnotlt]
    have key : (backfillSensorEpochTimes st nowEpoch nowMs).sensorChangedAtEpoch i
        = nowEpoch - ((usub32 nowMs (st.sensorChangedAtMs i) / 1000 : Nat) : Int) := by
      rw [hbody]
      simp only
      rw [if_neg hcond, if_pos hSec]
    refine ⟨key, ?_, ?_, ?_⟩
    · rw [key]
      omega
    · intro hle hlt
      have husub : usub32 nowMs (st.sensorChangedAtMs i) = nowMs - st.sensorChangedAtMs i := by
        unfold usub32 UL_MOD
        unfold UL_MOD at hlt
        omega
      rw [key, husub]
    · intro h1 h2
      have h4 : usub32 nowMs (st.sensorChangedAtMs i) / 1000 = 4 := by
        rw [h1, h2]
        decide
      rw [key, h4]
      norm_num
  · intro h
    unfold backfillSensorEpochTimes
    rw [if_pos h]

/-- C7 witness: a channel with `changedAtUptimeMs = 1000`, current uptime
5000 and current epoch 1704067300 is backfilled to 1704067296. -/
theorem backfillSensorEpochTimes_correct_witness :
    (backfillSensorEpochTimes st7 1704067300 5000).sensorChangedAtEpoch 0 = 1704067296 := by
  have h := (backfillSensorEpochTimes_correct st7 1704067300 5000 0).1
    (by decide) (by decide) (by decide) (by decide)
  have h4 := h.2.2.2 (by decide) rfl
  rw [h4]
  norm_num

/-- C10: the per-channel formatted transition time is the placeholder
string when the index is out of range (> 3) or the channel has no
recorded transition (`changedAtMs = 0`); when the clock is trusted and
the stored epoch is at or above the minimum valid epoch it is the
epoch-formatted string; in all remaining cases it is the uptime-relative
string built from `changedAtMs / 1000` seconds. -/
theorem sensorChangeTimeToStr_cases (strf : Int → Option String) (st : DeviceState)
    (nowEpoch : Int) (idx : Nat) :
    (3 < idx → sensorChangeTimeToStr strf st nowEpoch idx = "-") ∧
    (∀ h : idx < 4, st.sensorChangedAtMs ⟨idx, h⟩ = 0 →
      sensorChangeTimeToStr strf st nowEpoch idx = "-") ∧
    (∀ h : idx < 4, st.sensorChangedAtMs ⟨idx, h⟩ ≠ 0 →
      MIN_VALID_EPOCH ≤ nowEpoch → MIN_VALID_EPOCH ≤ st.sensorChangedAtEpoch ⟨idx, h⟩ →
      sensorChangeTimeToStr strf st nowEpoch idx
        = formatEpoch strf (st.sensorChangedAtEpoch ⟨idx, h⟩)) ∧
    (∀ h : idx < 4, st.sensorChangedAtMs ⟨idx, h⟩ ≠ 0 →
      ¬ (MIN_VALID_EPOCH ≤ nowEpoch ∧ MIN_VALID_EPOCH ≤ st.sensorChangedAtEpoch ⟨idx, h⟩) →
      sensorChangeTimeToStr strf st nowEpoch idx
        = "t+" ++ toString (st.sensorChangedAtMs ⟨idx, h⟩ / 1000) ++ "s") := by
  refine ⟨?_, ?_, ?_, ?_⟩
  · intro h
    unfold sensorChangeTimeToStr
    rw [dif_pos h]
  · intro h h0
    have hn : ¬ 3 < idx := by omega
    unfold sensorChangeTimeToStr
    rw [dif_neg hn]
    simp only
    rw [if_pos h0]
  · intro h h0 h1 h2
    have hn : ¬ 3 < idx := by omega
    unfold sensorChangeTimeToStr
    rw [dif_neg hn]
    simp only
    rw [if_neg h0, if_pos ⟨h1, h2⟩]
  · intro h h0 h12
    have hn : ¬ 3 < idx := by omega
    unfold sensorChangeTimeToStr
    rw [dif_neg hn]
    simp only
    rw [if_neg h0, if_neg h12]

/-- C10 witness: out-of-range index gives the placeholder; an
un-backfilled transition with an untrusted clock gives the
uptime-relative string; a backfilled transition with a trusted clock
gives the formatted epoch. -/
theorem sensorChangeTimeToStr_cases_witness :
    sensorChangeTimeToStr (fun _ => some "2024-01-01 00:00:10") st7 1704067300 5 = "-" ∧
    sensorChangeTimeToStr (fun _ => some "2024-01-01 00:00:10") st7 1704067250 0 = "t+1s" ∧
    sensorChangeTimeToStr (fun _ => some "2024-01-01 00:00:10") stBackfilled 1704067300 0
      = "2024-01-01 00:00:10" := by
  refine ⟨?_, ?_, ?_⟩
  · exact (sensorChangeTimeToStr_cases (fun _ => some "2024-01-01 00:00:10") st7 1704067300 5).1
      (by omega)
  · have h := (sensorChangeTimeToStr_cases (fun _ => some "2024-01-01 00:00:10") st7 1704067250 0).2.2.2
      (by omega) (by decide) (by decide)
    rw [h]
    decide
  · have h := (sensorChangeTimeToStr_cases (fun _ => some "2024-01-01 00:00:10") stBackfilled 1704067300 0).2.2.1
      (by omega) (by decide) (by decide) (by decide)
    rw [h]
    decide

/-- C1 (amended): every check invocation that ends in the
WiFi-disconnected refusal or in a fetch/parse failure leaves the session
with `updateAvailable = false` and a status message recording the
failure reason; the pending manifest is left unchanged (it is reset to
the empty manifest only by a successful check that finds no newer
version). -/
theorem handleCheckUpdate_failure_paths (st : DeviceState) (resp : TransportResponse) :
    ((handleCheckUpdate st false resp).updateAvailable = false ∧
     (handleCheckUpdate st false resp).updateStatus = "Cannot check update: WiFi is disconnected." ∧
     (handleCheckUpdate st false resp).pendingUpdate = st.pendingUpdate) ∧
    (∀ e, fetchManifest resp = .error e →
      (handleCheckUpdate st true resp).updateAvailable = false ∧
      (handleCheckUpdate st true resp).updateStatus = "Update check failed: " ++ e ∧
      (handleCheckUpdate st true resp).pendingUpdate = st.pendingUpdate) := by
  constructor
  · simp [handleCheckUpdate]
  · intro e he
    simp [handleCheckUpdate, he]

/-- C1 counterexample: a check that ends in a fetch failure while a
manifest from an earlier successful check is pending does NOT clear the
pending manifest to `{0, "", ""}`, refuting the claim as stated. -/
theorem handleCheckUpdate_pending_not_cleared :
    (handleCheckUpdate stWithPending true failedResp).updateStatus
      = "Update check failed: cannot open URL" ∧
    (handleCheckUpdate stWithPending true failedResp).updateAvailable = false ∧
    (handleCheckUpdate stWithPending true failedResp).pendingUpdate ≠ emptyManifest := by
  refine ⟨by decide, by decide, by decide⟩

/-- C1 witness: the failure-path theorem applied to a state with a
pending manifest, for both the WiFi refusal and a concrete fetch
failure. -/
theorem handleCheckUpdate_failure_paths_witness :
    (handleCheckUpdate stWithPending false failedResp).updateAvailable = false ∧
    (handleCheckUpdate stWithPending false failedResp).updateStatus
      = "Cannot check update: WiFi is disconnected." ∧
    (handleCheckUpdate stWithPending false failedResp).pendingUpdate = stWithPending.pendingUpdate ∧
    (handleCheckUpdate stWithPending true failedResp).updateAvailable = false ∧
    (handleCheckUpdate stWithPending true failedResp).updateStatus
      = "Update check failed: cannot open URL" ∧
    (handleCheckUpdate stWithPending true failedResp).pendingUpdate = stWithPending.pendingUpdate := by
  have h1 := (handleCheckUpdate_failure_paths stWithPending failedResp).1
  have h2 := (handleCheckUpdate_failure_paths stWithPending failedResp).2 "cannot open URL" rfl
  exact ⟨h1.1, h1.2.1, h1.2.2, h2.1, h2.2.1, h2.2.2⟩

/-- C2 (amended): the manifest fetch succeeds iff the transport opened
and the HTTP status is exactly 200 (`HTTP_CODE_OK`); a non-200 status
yields a failure whose error string carries the numeric status; on
success the response body is passed unchanged to the manifest parser. -/
theorem fetchTextFromUrl_status (url : String) (resp : TransportResponse) :
    ((∃ b, fetchTextFromUrl url resp = .ok b) ↔ (resp.opened = true ∧ resp.code = 200)) ∧
    (resp.opened = false → fetchTextFromUrl url resp = .error "cannot open URL") ∧
    (resp.opened = true → resp.code ≠ 200 →
      fetchTextFromUrl url resp = .error ("HTTP " ++ toString resp.code)) ∧
    (resp.opened = true → resp.code = 200 → fetchTextFromUrl url resp = .ok resp.body) ∧
    (resp.opened = true → resp.code = 200 → fetchManifest resp = parseManifest resp.body) := by
  have hX : ∀ u : String, fetchTextFromUrl u resp
      = (if ¬ resp.opened then .error "cannot open URL"
         else if resp.code ≠ HTTP_CODE_OK then .error ("HTTP " ++ toString resp.code)
         else .ok resp.body) := by
    intro u
    unfold fetchTextFromUrl
    rw [ite_self]
  cases hop : resp.opened
  · simp [hX, hop]
  · by_cases hc : resp.code = 200
    · refine ⟨?_, ?_, ?_, ?_, ?_⟩
      · simp [hX, hop, hc, HTTP_CODE_OK]
      · simp [hop]
      · intro _ hne
        exact absurd hc hne
      · intro _ _
        simp [hX, hop, hc, HTTP_CODE_OK]
      · intro _ _
        unfold fetchManifest
        rw [hX UPDATE_MANIFEST_URL]
        simp [hop, hc, HTTP_CODE_OK]
        rfl
    · refine ⟨?_, ?_, ?_, ?_, ?_⟩
      · simp [hX, hop, hc, HTTP_CODE_OK]
      · simp [hop]
      · intro _ _
        simp [hX, hop, hc, HTTP_CODE_OK]
      · intro _ h200
        exact absurd h200 hc
      · intro _ h200
        exact absurd h200 hc

/-- C2 counterexample: status 204 lies in the 2xx range, yet the fetch
fails with the error string carrying 204, refuting the claim's "2xx"
boundary as stated. -/
theorem fetchTextFromUrl_rejects_204 :
    ((200 : Int) ≤ 204 ∧ (204 : Int) < 300) ∧
    fetchTextFromUrl UPDATE_MANIFEST_URL { opened := true, code := 204, body := "v" }
      = .error "HTTP 204" := by
  constructor
  · decide
  · rfl

/-- C2 witness: a 200 response succeeds with the body handed unchanged
to the parser. -/
theorem fetchTextFromUrl_status_witness :
    fetchTextFromUrl "http://h/m.txt" { opened := true, code := 200, body := "b" } = .ok "b" ∧
    fetchManifest { opened := true, code := 200, body := "version_code=9\nfirmware_url=u" }
      = parseManifest "version_code=9\nfirmware_url=u" := by
  constructor
  · exact (fetchTextFromUrl_status "http://h/m.txt" ⟨true, 200, "b"⟩).2.2.2.1 rfl rfl
  · exact (fetchTextFromUrl_status UPDATE_MANIFEST_URL
      ⟨true, 200, "version_code=9\nfirmware_url=u"⟩).2.2.2.2 rfl rfl

/-- Pushing `dropWhile` through an appended non-matching last element;
used to reason about trimming around a leading comment marker. -/
theorem dropWhile_append_single (p : Char → Bool) (m : List Char) (c : Char) (h : p c = false) :
    (m ++ [c]).dropWhile p = m.dropWhile p ++ [c] := by
  induction m with
  | nil => simp [List.dropWhile, h]
  | cons a t ih =>
    by_cases ha : p a
    · simp [List.dropWhile_cons, ha, ih]
    · simp [List.dropWhile_cons, ha]

/-- C3: manifest parsing succeeds iff the accumulated `version_code` is
positive and the accumulated `firmware_url` is non-empty; all-whitespace
lines and lines whose first non-whitespace character is `#` are ignored;
keys are matched case-insensitively after trimming (two keys with the
same trimmed lowercase form act identically) and unrecognized keys are
ignored; each failure yields a fixed non-empty reason, distinct between
missing version code and missing URL; and on success an empty
`version_name` defaults to the decimal string form of `version_code`. -/
theorem parseManifest_spec (body : String) :
    ((∃ m, parseManifest body = .ok m) ↔
        (0 < (parseManifestFields body).versionCode ∧
         (parseManifestFields body).firmwareUrl ≠ "")) ∧
    (∀ acc : UpdateManifest, ∀ l : List Char,
        l.all isSpaceChar → processLine acc l = acc) ∧
    (∀ acc : UpdateManifest, ∀ l : List Char,
        (l.dropWhile isSpaceChar).head? = some '#' → processLine acc l = acc) ∧
    (∀ acc : UpdateManifest, ∀ k₁ k₂ v : List Char,
        toLowerChars (trimChars k₁) = toLowerChars (trimChars k₂) →
        processKV acc k₁ v = processKV acc k₂ v) ∧
    (∀ acc : UpdateManifest, ∀ k v : List Char,
        toLowerChars (trimChars k) ≠ "version_code".data →
        toLowerChars (trimChars k) ≠ "version_name".data →
        toLowerChars (trimChars k) ≠ "firmware_url".data →
        processKV acc k v = acc) ∧
    ((parseManifestFields body).versionCode ≤ 0 →
        parseManifest body = .error "manifest missing valid version_code") ∧
    (0 < (parseManifestFields body).versionCode →
        (parseManifestFields body).firmwareUrl = "" →
        parseManifest body = .error "manifest missing firmware_url") ∧
    ("manifest missing valid version_code" ≠ "" ∧
     "manifest missing firmware_url" ≠ "" ∧
     ("manifest missing valid version_code" : String) ≠ "manifest missing firmware_url") ∧
    (∀ m : UpdateManifest, parseManifest body = .ok m →
        m.versionCode = (parseManifestFields body).versionCode ∧
        m.firmwareUrl = (parseManifestFields body).firmwareUrl ∧
        m.versionName = (if (parseManifestFields body).versionName = ""
                         then toString (parseManifestFields body).versionCode
                         else (parseManifestFields body).versionName)) := by
  refine ⟨?_, ?_, ?_, ?_, ?_, ?_, ?_, by decide, ?_⟩
  · by_cases h1 : (parseManifestFields body).versionCode ≤ 0
    · simp only [parseManifest, if_pos h1]
      constructor
      · rintro ⟨m, hm⟩
        exact absurd hm (by simp)
      · rintro ⟨hv, -⟩
        omega
    · by_cases h2 : (parseManifestFields body).firmwareUrl = ""
      · simp only [parseManifest, if_neg h1, if_pos h2]
        constructor
        · rintro ⟨m, hm⟩
          exact absurd hm (by simp)
        · rintro ⟨-, hu⟩
          exact absurd h2 hu
      · simp only [parseManifest, if_neg h1, if_neg h2]
        constructor
        · intro _
          exact ⟨by omega, h2⟩
        · intro _
          exact ⟨_, rfl⟩
  · intro acc l hall
    have hd : l.dropWhile isSpaceChar = [] := by
      rw [List.dropWhile_eq_nil_iff]
      intro x hx
      exact (List.all_eq_true.mp hall) x hx
    have ht : trimChars l = [] := by
      simp [trimChars, hd]
    simp [processLine, ht]
  · intro acc l hhead
    obtain ⟨t, hdrop⟩ : ∃ t, l.dropWhile isSpaceChar = '#' :: t := by
      cases hcase : l.dropWhile isSpaceChar with
      | nil => rw [hcase] at hhead; simp at hhead
      | cons a t =>
        rw [hcase] at hhead
        simp at hhead
        exact ⟨t, by rw [hhead]⟩
    have htrim : trimChars l = '#' :: (t.reverse.dropWhile isSpaceChar).reverse := by
      unfold trimChars
      rw [hdrop]
      rw [List.reverse_cons]
      rw [dropWhile_append_single isSpaceChar t.reverse '#' (by decide)]
      simp
    unfold processLine
    rw [htrim]
    simp [isPrefixOfChars]
  · intro acc k1 k2 v h
    simp only [processKV]
    rw [h]
  · intro acc k v h1 h2 h3
    simp [processKV, h1, h2, h3]
  · intro h1
    simp [parseManifest, h1]
  · intro h1 h2
    simp [parseManifest, h2]
    omega
  · intro m hm
    revert hm
    simp only [parseManifest]
    split_ifs <;> intro hm <;>
      first
        | exact hm.elim
        | (obtain rfl := Except.ok.inj hm; exact ⟨rfl, rfl, rfl⟩)

/-- C3 witness: a well-formed manifest parses successfully; a blank line,
a comment line and an unknown key leave the accumulator unchanged; and
two case variants of `version_code` act identically. -/
theorem parseManifest_spec_witness :
    (∃ m, parseManifest "version_code=42\nversion_name=beta\nfirmware_url=http://x/fw.bin\n" = .ok m) ∧
    processLine pendingW "   ".data = pendingW ∧
    processLine pendingW "  # note".data = pendingW ∧
    processKV pendingW " Version_Code ".data " 7 ".data
      = processKV pendingW "vERSION_cODE".data " 7 ".data ∧
    processKV pendingW "other_key".data "x".data = pendingW := by
  refine ⟨?_, ?_, ?_, ?_, ?_⟩
  · exact (parseManifest_spec "version_code=42\nversion_name=beta\nfirmware_url=http://x/fw.bin\n").1.mpr
      ⟨by decide, by decide⟩
  · exact (parseManifest_spec "").2.1 pendingW "   ".data (by decide)
  · exact (parseManifest_spec "").2.2.1 pendingW "  # note".data (by decide)
  · exact (parseManifest_spec "").2.2.2.1 pendingW " Version_Code ".data "vERSION_cODE".data
      " 7 ".data (by decide)
  · exact (parseManifest_spec "").2.2.2.2.1 pendingW "other_key".data "x".data
      (by decide) (by decide) (by decide)

end TMV7
